import Mathlib

/-!
Verification of the Nestify preference-inference and scoring engine.

Shallow embedding of the core logic of `src/frontend_stuff/swipe.js`:
profile building (`buildPreferenceProfile` and its helpers), match scoring
(`calculateMatchScore`), recommendation ranking (`renderRecommendations`),
and the load-more session transition (`loadMoreProperties`).

Modelling conventions:
* JavaScript numbers are modelled as exact rationals (`ℚ`); every constant in
  the source (0.3, 0.15, 50000, …) is an exact rational, so this is faithful up
  to double rounding, which none of the verified properties depend on.
* A JavaScript value that may be `undefined`/`null` is an `Option`.
* JavaScript truthiness of strings/numbers (empty string and 0 are falsy) is
  modelled explicitly by `truthyStr` / `truthyNum` / `jsStrOr` / `numOrElse`.
* `Math.round` rounds half toward +∞: `jround q = ⌊q + 1/2⌋`.
* The one place where the source can produce `NaN` (`0/0` inside the in-range
  price/size formula) is modelled by `Option ℚ` dimension scores: `none` is
  `NaN`.  `NaN || 0` is `0` (`Option.getD 0`), `NaN === 0` is `false`
  (`≠ some 0`), `NaN > 0` is `false` — each is modelled accordingly.
* `Array.prototype.sort` (stable, by the given comparator) is modelled by
  `List.insertionSort`, which is stable.
* `Math.random()` inside the Fisher–Yates shuffle of `pickRandomSubset` is
  modelled by an injected source `rnd : ℕ → ℕ`; step `i` uses `rnd i % (i+1)`,
  which ranges over exactly the indices `0..i` that `Math.floor(random*(i+1))`
  can produce.
-/

/-- `Math.round`: round half toward +∞ (JavaScript semantics). -/
def jround (q : ℚ) : ℤ := ⌊q + 1/2⌋

/-- JS truthiness for an optional string (absent and `""` are falsy). -/
def truthyStr : Option String → Bool
  | some s => s != ""
  | none => false

/-- JS truthiness for an optional number (absent and `0` are falsy). -/
def truthyNum : Option ℚ → Bool
  | some v => v != 0
  | none => false

/-- JS `a || b` on optional strings. -/
def jsStrOr : Option String → Option String → Option String
  | some s, b => if s = "" then b else some s
  | none, b => b

/-- JS `a || b` on optional numbers. -/
def numOrElse : Option ℚ → Option ℚ → Option ℚ
  | some v, b => if v = 0 then b else some v
  | none, b => b

/-- Keep a numeric sample only when it is a number `> 0` (the
`typeof v === "number" && v > 0` filters of `buildPreferenceProfile`). -/
def posOnly : Option ℚ → Option ℚ
  | some v => if 0 < v then some v else none
  | none => none

/-- Rational stand-in for `Math.sqrt`.  It is exact on perfect-square
rationals — the only inputs at which any evaluation in this file ever forces
it (all concrete samples used have variance `0`).  Properties quantifying over
standard deviations treat them as arbitrary rationals, so nothing proved
depends on the value of this function off perfect squares, where the true
`Math.sqrt` is irrational and not representable in `ℚ`. -/
def ratSqrt (q : ℚ) : ℚ := (Nat.sqrt q.num.toNat : ℚ) / (Nat.sqrt q.den : ℚ)

/-- `address` record of a listing (`city`, `displayName`, `_normalized_city`). -/
structure Address where
  city : Option String
  displayName : Option String
  normalizedCity : Option String
deriving DecidableEq

/-- A property listing, with exactly the fields the engine reads. -/
structure Listing where
  id : Option String
  title : Option String
  address : Option Address
  buyingPrice : Option ℚ
  squareMeter : Option ℚ
  livingSpace : Option ℚ
  rooms : Option ℚ
deriving DecidableEq

/-- `p.address && (p.address.city || p.address.displayName ||
p.address._normalized_city)`, post-composed with the `.filter(Boolean)`
truthiness filter (so the result is never `some ""`). -/
def listingCity (p : Listing) : Option String :=
  match p.address with
  | none => none
  | some a =>
    match jsStrOr (jsStrOr a.city a.displayName) a.normalizedCity with
    | some s => if s = "" then none else some s
    | none => none

/-- `p.squareMeter || p.livingSpace`. -/
def listingSqm (p : Listing) : Option ℚ := numOrElse p.squareMeter p.livingSpace

/-- `calculateStdDev(values, mean)`: population standard deviation, `0` for
fewer than two samples. -/
def calculateStdDev (values : List ℚ) (mean : ℚ) : ℚ :=
  if values.length < 2 then 0
  else ratSqrt ((values.foldl (fun sum val => sum + (val - mean) ^ 2) 0) / (values.length : ℚ))

/-- Result record of `calculateCategoryPreferences`. -/
structure CategoryStats where
  preferred : Option String
  alternatives : List String
  consistency : ℤ
deriving DecidableEq

/-- The frequency table built by `categories.forEach`: association list in
first-occurrence order (JS object keys preserve insertion order). -/
def countsList (categories : List String) : List (String × ℕ) :=
  categories.foldl
    (fun acc cat =>
      if acc.any (fun e => e.1 = cat) then
        acc.map (fun e => if e.1 = cat then (e.1, e.2 + 1) else e)
      else acc ++ [(cat, 1)])
    []

/-- `calculateCategoryPreferences(categories)`: most frequent value, its
percentage share, and the alternatives passing
`count >= Math.max(2, Math.floor(categories.length * 0.15))`. -/
def calculateCategoryPreferences (categories : List String) : CategoryStats :=
  if categories = [] then ⟨none, [], 0⟩
  else
    match List.insertionSort (fun a b : String × ℕ => b.2 ≤ a.2) (countsList categories) with
    | [] => ⟨none, [], 0⟩  -- unreachable: nonempty input yields a nonempty table
    | top :: rest =>
      let consistency := jround ((top.2 : ℚ) / (categories.length : ℚ) * 100)
      let threshold := max 2 (((categories.length : ℚ) * (15/100)).floor.toNat)
      ⟨some top.1, (rest.filter (fun e => threshold ≤ e.2)).map (fun e => e.1), consistency⟩

/-- The four dynamic weights (integers after `Math.round`). -/
structure Weights where
  city : ℤ
  price : ℤ
  size : ℤ
  rooms : ℤ
deriving DecidableEq

/-- The `stats` argument of `calculateDynamicWeights`. -/
structure WeightStats where
  cityConsistency : ℤ
  stdDevPrice : Option ℚ
  avgPrice : Option ℚ
  stdDevSqm : Option ℚ
  avgSqm : Option ℚ
  stdDevRooms : Option ℚ
  avgRooms : Option ℚ
  sampleSize : ℕ
deriving DecidableEq

/-- `avg > 0 ? stdDev / avg : 1` — coefficient of variation with the source
guards; a `null` stdDev divided by a number is JS `0`, hence `getD 0`. -/
def cvOf (std avg : Option ℚ) : ℚ :=
  match avg with
  | some a => if 0 < a then std.getD 0 / a else 1
  | none => 1

/-- The `if (totalScore > 0)` redistribution block of
`calculateDynamicWeights`: proportional adjustment, clamp to the documented
per-weight bounds, round, then renormalize to a total of exactly 100 with the
rooms weight absorbing the rounding remainder. -/
def redistributeWeights (cityScore priceScore sizeScore roomsScore totalScore : ℚ) : Weights :=
  let wc := jround (max 15 (min 35 (25 * (cityScore / totalScore) * 4)))
  let wp := jround (max 25 (min 45 (35 * (priceScore / totalScore) * 4)))
  let ws := jround (max 20 (min 40 (30 * (sizeScore / totalScore) * 4)))
  let wr := jround (max 5 (min 15 (10 * (roomsScore / totalScore) * 4)))
  let sum : ℚ := ((wc + wp + ws + wr : ℤ) : ℚ)
  let c2 := jround ((wc : ℚ) / sum * 100)
  let p2 := jround ((wp : ℚ) / sum * 100)
  let s2 := jround ((ws : ℚ) / sum * 100)
  ⟨c2, p2, s2, 100 - c2 - p2 - s2⟩

/-- `calculateDynamicWeights(stats)`. -/
def calculateDynamicWeights (stats : WeightStats) : Weights :=
  let base : Weights := ⟨25, 35, 30, 10⟩
  if stats.sampleSize < 3 then base
  else
    let cvPrice := cvOf stats.stdDevPrice stats.avgPrice
    let cvSize := cvOf stats.stdDevSqm stats.avgSqm
    let cvRooms := cvOf stats.stdDevRooms stats.avgRooms
    let cityScore := (stats.cityConsistency : ℚ) / 100
    let priceScore := max 0 (min 1 (1 - cvPrice / (4/10)))
    let sizeScore := max 0 (min 1 (1 - cvSize / (4/10)))
    let roomsScore := max 0 (min 1 (1 - cvRooms / (4/10)))
    let totalScore := cityScore + priceScore + sizeScore + roomsScore
    if 0 < totalScore then
      redistributeWeights cityScore priceScore sizeScore roomsScore totalScore
    else base

/-- The `stats` argument of `calculateConfidenceScore`. -/
structure ConfStats where
  cityConsistency : ℤ
  stdDevPrice : Option ℚ
  avgPrice : Option ℚ
  stdDevSqm : Option ℚ
  avgSqm : Option ℚ
deriving DecidableEq

/-- Sample-size base of `calculateConfidenceScore`. -/
def confBase (sampleSize : ℕ) : ℚ :=
  if 10 ≤ sampleSize then 100
  else if 7 ≤ sampleSize then 90
  else if 5 ≤ sampleSize then 75
  else if 3 ≤ sampleSize then 60
  else if 2 ≤ sampleSize then 40
  else 20

/-- The two multiplicative consistency penalties of `calculateConfidenceScore`,
applied to a base confidence `c`. -/
def confAdjusted (stats : ConfStats) (c : ℚ) : ℚ :=
  let c1 := if stats.cityConsistency < 40 then c * (9/10) else c
  let cvPrice := cvOf stats.stdDevPrice stats.avgPrice
  let cvSize := cvOf stats.stdDevSqm stats.avgSqm
  if (1/2 : ℚ) < cvPrice ∨ (1/2 : ℚ) < cvSize then c1 * (85/100) else c1

/-- `calculateConfidenceScore(sampleSize, stats)`. -/
def calculateConfidenceScore (sampleSize : ℕ) (stats : ConfStats) : ℤ :=
  jround (confAdjusted stats (confBase sampleSize))

/-- Min/max/mean/standard-deviation record of one numeric dimension of the
profile (`null` fields when the dimension has no valid sample). -/
structure DimStats where
  minV : Option ℚ
  maxV : Option ℚ
  avgV : Option ℚ
  stdV : Option ℚ
deriving DecidableEq

/-- Stats of the price / size dimensions of `buildPreferenceProfile`:
sort ascending, take `sorted[0]` and `sorted[length-1]`, mean, stddev. -/
def sortStats (vals : List ℚ) : DimStats :=
  match List.insertionSort (fun a b : ℚ => a ≤ b) vals with
  | [] => ⟨none, none, none, none⟩
  | h :: t =>
    let avg := vals.foldl (· + ·) 0 / (vals.length : ℚ)
    ⟨some h, some (t.getLastD h), some avg, some (calculateStdDev vals avg)⟩

/-- Stats of the rooms dimension of `buildPreferenceProfile`:
`Math.min(...rooms)` / `Math.max(...rooms)`, mean, stddev. -/
def minMaxStats (vals : List ℚ) : DimStats :=
  match vals with
  | [] => ⟨none, none, none, none⟩
  | h :: t =>
    let avg := (h :: t).foldl (· + ·) 0 / ((h :: t).length : ℚ)
    ⟨some (t.foldl min h), some (t.foldl max h), some avg,
      some (calculateStdDev (h :: t) avg)⟩

/-- The preference profile record returned by `buildPreferenceProfile`.
`weights` is always set by the builder, so the scorer
`profile.weights || {...}` fallback never fires on a built profile and the
field is not optional here. -/
structure Profile where
  preferredCity : Option String
  alternativeCities : List String
  cityConsistency : ℤ
  minPrice : Option ℚ
  maxPrice : Option ℚ
  avgPrice : Option ℚ
  stdDevPrice : Option ℚ
  minSqm : Option ℚ
  maxSqm : Option ℚ
  avgSqm : Option ℚ
  stdDevSqm : Option ℚ
  minRooms : Option ℚ
  maxRooms : Option ℚ
  avgRooms : Option ℚ
  stdDevRooms : Option ℚ
  weights : Weights
  sampleSize : ℕ
  confidence : ℤ
deriving DecidableEq

/-- `buildPreferenceProfile(liked)`: `null` on an empty liked set, otherwise
the statistical profile of the liked listings. -/
def buildPreferenceProfile (liked : List Listing) : Option Profile :=
  if liked = [] then none
  else
    let cities := liked.filterMap listingCity
    let prices := liked.filterMap (fun p => posOnly p.buyingPrice)
    let sqms := liked.filterMap (fun p => posOnly (listingSqm p))
    let rooms := liked.filterMap (fun p => posOnly p.rooms)
    let cityStats := calculateCategoryPreferences cities
    let priceS := sortStats prices
    let sqmS := sortStats sqms
    let roomS := minMaxStats rooms
    some
      { preferredCity := cityStats.preferred
        alternativeCities := cityStats.alternatives
        cityConsistency := cityStats.consistency
        minPrice := priceS.minV, maxPrice := priceS.maxV
        avgPrice := priceS.avgV, stdDevPrice := priceS.stdV
        minSqm := sqmS.minV, maxSqm := sqmS.maxV
        avgSqm := sqmS.avgV, stdDevSqm := sqmS.stdV
        minRooms := roomS.minV, maxRooms := roomS.maxV
        avgRooms := roomS.avgV, stdDevRooms := roomS.stdV
        weights := calculateDynamicWeights
          ⟨cityStats.consistency, priceS.stdV, priceS.avgV, sqmS.stdV, sqmS.avgV,
            roomS.stdV, roomS.avgV, liked.length⟩
        sampleSize := liked.length
        confidence := calculateConfidenceScore liked.length
          ⟨cityStats.consistency, priceS.stdV, priceS.avgV, sqmS.stdV, sqmS.avgV⟩ }

/-- The source guards profile building with `if (!liked || liked.length === 0)`:
this wrapper also models the `null`/`undefined` argument case. -/
def buildPreferenceProfileOpt (liked : Option (List Listing)) : Option Profile :=
  match liked with
  | none => none
  | some l => buildPreferenceProfile l

/-- `isSameProperty(a, b)`: compare ids when both are truthy, otherwise
compare title and buying price.  (The source `if (!a || !b) return false`
guard cannot fire here: listings are never `null` in this embedding.) -/
def isSameProperty (a b : Listing) : Bool :=
  if truthyStr a.id && truthyStr b.id then a.id == b.id
  else a.title == b.title && a.buyingPrice == b.buyingPrice

/-- City dimension score of `calculateMatchScore`: 100 on the preferred city,
70 on an alternative, 0 otherwise (also when either side is unknown).
`listingCity` never produces `some ""`, so only the profile side needs the
explicit truthiness check. -/
def cityScoreOf (p : Listing) (pr : Profile) : ℚ :=
  match listingCity p, pr.preferredCity with
  | some c, some pc =>
    if pc = "" then 0
    else if c = pc then 100
    else if pr.alternativeCities.contains c then 70 else 0
  | _, _ => 0

/-- Price dimension score of `calculateMatchScore`.  `none` models the `NaN`
the source produces in the in-range branch when
`maxDistanceFromAvg = max(avg − min, max − avg) = 0` (then
`distanceFromAvg` is also `0`, `0/0 = NaN`, and `Math.max(80, NaN) = NaN`). -/
def priceScoreOf (p : Listing) (pr : Profile) : Option ℚ :=
  match p.buyingPrice with
  | some price =>
    if 0 < price ∧ truthyNum pr.minPrice ∧ truthyNum pr.maxPrice ∧ truthyNum pr.avgPrice then
      let minP := pr.minPrice.getD 0
      let maxP := pr.maxPrice.getD 0
      let avgP := pr.avgPrice.getD 0
      let buffer := max ((maxP - minP) * (3/10)) 50000
      if minP ≤ price ∧ price ≤ maxP then
        let d := |price - avgP|
        let maxD := max (avgP - minP) (maxP - avgP)
        if maxD = 0 then none
        else some (max 80 (100 - d / maxD * 20))
      else if minP - buffer ≤ price ∧ price ≤ maxP + buffer then
        let dr := if price < minP then minP - price else price - maxP
        some (max 50 (80 - dr / buffer * 30))
      else some 0
    else some 0
  | none => some 0

/-- Size dimension score of `calculateMatchScore`: same algorithm as price
with buffer floor 15, plus the `sqm < 15` implausibility rejection.  `none`
models the same `0/0 = NaN` degeneracy as in `priceScoreOf`. -/
def sizeScoreOf (p : Listing) (pr : Profile) : Option ℚ :=
  match listingSqm p with
  | some sqm =>
    if 0 < sqm ∧ truthyNum pr.minSqm ∧ truthyNum pr.maxSqm ∧ truthyNum pr.avgSqm then
      if sqm < 15 then some 0
      else
        let minS := pr.minSqm.getD 0
        let maxS := pr.maxSqm.getD 0
        let avgS := pr.avgSqm.getD 0
        let buffer := max ((maxS - minS) * (3/10)) 15
        if minS ≤ sqm ∧ sqm ≤ maxS then
          let d := |sqm - avgS|
          let maxD := max (avgS - minS) (maxS - avgS)
          if maxD = 0 then none
          else some (max 80 (100 - d / maxD * 20))
        else if minS - buffer ≤ sqm ∧ sqm ≤ maxS + buffer then
          let dr := if sqm < minS then minS - sqm else sqm - maxS
          some (max 50 (80 - dr / buffer * 30))
        else some 0
    else some 0
  | none => some 0

/-- Rooms dimension score of `calculateMatchScore`; the profile-side guard is
the source strict `profile.avgRooms !== null`, not truthiness. -/
def roomsScoreOf (p : Listing) (pr : Profile) : ℚ :=
  match p.rooms with
  | some r =>
    if 0 < r ∧ pr.avgRooms ≠ none then
      let diff := |r - pr.avgRooms.getD 0|
      if diff = 0 then 100
      else if diff ≤ 1 then 70
      else if diff ≤ 2 then 40
      else 0
    else 0
  | none => 0

/-- The weighted aggregate of `calculateMatchScore`; `(score || 0)` turns the
`NaN` dimension scores (`none`) into a `0` contribution. -/
def weightedTotal (p : Listing) (pr : Profile) : ℚ :=
  cityScoreOf p pr * ((pr.weights.city : ℚ) / 100)
    + (priceScoreOf p pr).getD 0 * ((pr.weights.price : ℚ) / 100)
    + (sizeScoreOf p pr).getD 0 * ((pr.weights.size : ℚ) / 100)
    + roomsScoreOf p pr * ((pr.weights.rooms : ℚ) / 100)

/-- Number of strictly positive dimension scores (`filter(s => s > 0)`;
`NaN > 0` is `false` in JS, hence `none` never counts). -/
def validScoresCount (p : Listing) (pr : Profile) : ℕ :=
  ([some (cityScoreOf p pr), priceScoreOf p pr, sizeScoreOf p pr,
      some (roomsScoreOf p pr)].filter
    (fun o => match o with | some v => decide (0 < v) | none => false)).length

/-- `calculateMatchScore(p, profile)` for a non-null profile.  The first
penalty test is the source strict `scores.price === 0 || scores.size === 0`
(`NaN === 0` is `false`, so a `NaN` score dodges it). -/
def calculateMatchScore (p : Listing) (pr : Profile) : ℤ :=
  let total := weightedTotal p pr
  if priceScoreOf p pr = some 0 ∨ sizeScoreOf p pr = some 0 then jround (total * (3/10))
  else if validScoresCount p pr < 3 then jround (total * (1/2))
  else jround total

/-- `calculateMatchScore` including the `if (!profile) return 0` guard. -/
def scoreListing (p : Listing) (pr : Option Profile) : ℤ :=
  match pr with
  | none => 0
  | some prof => calculateMatchScore p prof

/-- One entry of the ranked recommendation list. -/
structure ScoredItem where
  property : Listing
  score : ℤ
  isSurprise : Bool
deriving DecidableEq

/-- `likedProperties.some(lp => isSameProperty(lp, p))`. -/
def likedHas (liked : List Listing) (p : Listing) : Bool :=
  liked.any (fun lp => isSameProperty lp p)

/-- The comparator `(a, b) => b.score - a.score`: descending by score. -/
def scoreDesc (a b : ScoredItem) : Prop := b.score ≤ a.score

instance : DecidableRel scoreDesc :=
  fun a b => inferInstanceAs (Decidable (b.score ≤ a.score))

instance : IsTotal ScoredItem scoreDesc := ⟨fun a b => le_total b.score a.score⟩

instance : IsTrans ScoredItem scoreDesc := ⟨fun _ _ _ h1 h2 => le_trans h2 h1⟩

/-- The `scoredProperties` list of `renderRecommendations`: non-liked
candidates scoring ≥ 60, sorted descending. -/
def primaryList (all liked : List Listing) (pr : Profile) : List ScoredItem :=
  List.insertionSort scoreDesc
    (((all.filter (fun p => !likedHas liked p)).map
        (fun p => ⟨p, calculateMatchScore p pr, false⟩)).filter
      (fun it => 60 ≤ it.score))

/-- The `surpriseProperties` list: non-liked candidates not already
recommended, scoring in [45, 60), sorted descending. -/
def surprisePool (all liked : List Listing) (pr : Profile) : List ScoredItem :=
  List.insertionSort scoreDesc
    (((all.filter (fun p =>
          !likedHas liked p
            && !((primaryList all liked pr).any (fun it => isSameProperty it.property p)))).map
        (fun p => ⟨p, calculateMatchScore p pr, false⟩)).filter
      (fun it => 45 ≤ it.score && it.score < 60))

/-- The ranked output assembled by `renderRecommendations` (before the
display-only `slice(0, 10)`): the primary list, plus the single top surprise
flagged `isSurprise` when one exists and confidence is at least 60. -/
def renderRecs (all liked : List Listing) (pr : Profile) : List ScoredItem :=
  let primary := primaryList all liked pr
  match surprisePool all liked pr with
  | [] => primary
  | s :: _ => if 60 ≤ pr.confidence then primary ++ [⟨s.property, s.score, true⟩] else primary

/-- `MAX_TOTAL_SWIPES`: hard cap on cumulative listings shown. -/
def MAX_TOTAL_SWIPES : ℕ := 50

/-- Session state touched by `loadMoreProperties`: the full catalog and the
listings shown so far. -/
structure SwipeState where
  allProperties : List Listing
  properties : List Listing
deriving DecidableEq

/-- Outcome of one `loadMoreProperties` call: the max-swipes card, the
"seen everything" card (both only offer showing results), or a new batch. -/
inductive LoadMoreOutcome where
  | maxReached
  | exhausted
  | loaded (batch : List Listing)
deriving DecidableEq

/-- Swap the elements at positions `i` and `j` (out-of-range: unchanged), as
in the body of the Fisher–Yates loop of `pickRandomSubset`. -/
def swapNth (l : List α) (i j : ℕ) : List α :=
  match l.get? i, l.get? j with
  | some a, some b => (l.set i b).set j a
  | _, _ => l

/-- The Fisher–Yates loop `for (let i = len-1; i > 0; i--)` with the random
index at step `i` injected as `rnd i % (i+1)` (the values
`Math.floor(Math.random()*(i+1))` ranges over). -/
def shuffleSteps (rnd : ℕ → ℕ) : ℕ → List α → List α
  | 0, l => l
  | i + 1, l => shuffleSteps rnd i (swapNth l (i + 1) (rnd (i + 1) % (i + 2)))

/-- The full shuffle of `pickRandomSubset`. -/
def jsShuffle (rnd : ℕ → ℕ) (l : List α) : List α := shuffleSteps rnd (l.length - 1) l

/-- `pickRandomSubset(arr, n)`: shuffle a copy, `slice(0, min(n, length))`. -/
def pickRandomSubset (rnd : ℕ → ℕ) (arr : List α) (n : ℕ) : List α :=
  (jsShuffle rnd arr).take (min n arr.length)

/-- The candidates not yet shown, as filtered by `loadMoreProperties`. -/
def unseenOf (s : SwipeState) : List Listing :=
  s.allProperties.filter (fun p => !(s.properties.any (fun shown => isSameProperty shown p)))

/-- `loadMoreProperties()` as a state transition (DOM rendering dropped; the
branch taken is returned as the outcome). -/
def loadMoreProperties (rnd : ℕ → ℕ) (s : SwipeState) : SwipeState × LoadMoreOutcome :=
  if MAX_TOTAL_SWIPES ≤ s.properties.length then (s, .maxReached)
  else
    let unseen := unseenOf s
    if unseen.length = 0 then (s, .exhausted)
    else
      let remainingSlots := MAX_TOTAL_SWIPES - s.properties.length
      let batchSize := min 15 (min remainingSlots unseen.length)
      let more := pickRandomSubset rnd unseen batchSize
      (⟨s.allProperties, s.properties ++ more⟩, .loaded more)

/-- A listing in city "A" with price 300000, area 60 m², 2 rooms, no id. -/
def exA : Listing :=
  ⟨none, some "casa", some ⟨some "A", none, none⟩, some 300000, some 60, none, some 2⟩

/-- A listing with no address, price 300000, area 60 m², 2 rooms. -/
def exB : Listing :=
  ⟨none, some "anon", none, some 300000, some 60, none, some 2⟩

/-- A liked listing used by the ranking examples. -/
def exL : Listing :=
  ⟨none, some "liked0", some ⟨some "A", none, none⟩, some 120000, some 60, none, some 3⟩

/-- A candidate matching the example profile perfectly (score 100). -/
def exX : Listing :=
  ⟨none, some "candX", some ⟨some "A", none, none⟩, some 150000, some 75, none, some 3⟩

/-- A candidate scoring 56 against the example profile (wildcard range). -/
def exY : Listing :=
  ⟨none, some "candY", some ⟨some "C", none, none⟩, some 200000, some 100, none, some 5⟩

/-- A hand-written profile (city "A", price 100000–200000 around 150000,
size 50–100 m² around 75, 3 rooms, default weights, confidence 60). -/
def exPr : Profile :=
  ⟨some "A", ["B"], 100,
    some 100000, some 200000, some 150000, some 0,
    some 50, some 100, some 75, some 0,
    some 3, some 3, some 3, some 0,
    ⟨25, 35, 30, 10⟩, 1, 60⟩

/-- An id-less listing: title "dup", price 99000. -/
def exDupLiked : Listing := ⟨none, some "dup", none, some 99000, some 80, none, some 3⟩

/-- A distinct id-less listing sharing title and price with `exDupLiked`. -/
def exDupCand : Listing := ⟨none, some "dup", none, some 99000, some 60, none, some 2⟩

/-- Two listings carrying the same id but different titles and prices. -/
def exId1 : Listing := ⟨some "id1", some "t1", none, some 5, none, none, none⟩

/-- See `exId1`. -/
def exId2 : Listing := ⟨some "id1", some "t2", none, some 7, none, none, none⟩

/-- A deterministic stand-in for the injected random source. -/
def exRnd : ℕ → ℕ := fun _ => 0

/-- The profile `buildPreferenceProfile` derives from the single like `exA`
(all ranges degenerate, default weights, confidence 20). -/
def exProfA : Profile :=
  ⟨some "A", [], 100,
    some 300000, some 300000, some 300000, some 0,
    some 60, some 60, some 60, some 0,
    some 2, some 2, some 2, some 0,
    ⟨25, 35, 30, 10⟩, 1, 20⟩

/-- Consistency stats of a fully consistent liked set (used to hold the
consistency/CV inputs fixed while varying the sample size). -/
def exConfStats : ConfStats := ⟨100, some 0, some 300000, some 0, some 60⟩

/-- A listing whose resolved area is 10 m², below the plausibility floor. -/
def exTiny : Listing :=
  ⟨none, some "tiny", some ⟨some "A", none, none⟩, some 150000, some 10, none, some 3⟩

/-- A session state: catalog `[exX, exY]`, with `exX` already shown. -/
def exS : SwipeState := ⟨[exX, exY], [exX]⟩


/-! General lemmas about the embedded operations. -/

theorem jround_mono {q r : ℚ} (h : q ≤ r) : jround q ≤ jround r :=
  Int.floor_le_floor (by linarith)

theorem redistributeWeights_sum (c p s r t : ℚ) :
    (redistributeWeights c p s r t).city + (redistributeWeights c p s r t).price
      + (redistributeWeights c p s r t).size + (redistributeWeights c p s r t).rooms = 100 := by
  simp only [redistributeWeights]
  ring

theorem calculateDynamicWeights_sum (stats : WeightStats) :
    (calculateDynamicWeights stats).city + (calculateDynamicWeights stats).price
      + (calculateDynamicWeights stats).size + (calculateDynamicWeights stats).rooms = 100 := by
  simp only [calculateDynamicWeights]
  split_ifs
  · decide
  · apply redistributeWeights_sum
  · decide

theorem confBase_mono {m n : ℕ} (h : m ≤ n) : confBase m ≤ confBase n := by
  unfold confBase
  split_ifs
  all_goals try norm_num
  all_goals exfalso
  all_goals omega

theorem confAdjusted_mono (stats : ConfStats) {x y : ℚ} (h : x ≤ y) :
    confAdjusted stats x ≤ confAdjusted stats y := by
  simp only [confAdjusted]
  split_ifs <;> linarith

theorem cons_set_swap_perm (xs : List α) (k : ℕ) (a b : α) (h : xs.get? k = some b) :
    List.Perm (b :: xs.set k a) (a :: xs) := by
  induction xs generalizing k with
  | nil => simp at h
  | cons y ys ih =>
    cases k with
    | zero =>
      have hy : y = b := by simpa using h
      subst hy
      simpa using List.Perm.swap a y ys
    | succ m =>
      have h2 := ih m (by simpa using h)
      have s1 : List.Perm (b :: y :: ys.set m a) (y :: b :: ys.set m a) := List.Perm.swap y b _
      have s2 : List.Perm (y :: b :: ys.set m a) (y :: a :: ys) := h2.cons y
      have s3 : List.Perm (y :: a :: ys) (a :: y :: ys) := List.Perm.swap a y ys
      exact (s1.trans s2).trans s3

theorem set_set_swap_perm (l : List α) (i j : ℕ) (a b : α)
    (hi : l.get? i = some a) (hj : l.get? j = some b) :
    List.Perm ((l.set i b).set j a) l := by
  induction l generalizing i j with
  | nil => simp at hi
  | cons x xs ih =>
    cases i with
    | zero =>
      have hx : x = a := by simpa using hi
      subst hx
      cases j with
      | zero =>
        have hb : x = b := by simpa using hj
        subst hb
        simp
      | succ m =>
        simpa using cons_set_swap_perm xs m x b (by simpa using hj)
    | succ k =>
      cases j with
      | zero =>
        have hx : x = b := by simpa using hj
        subst hx
        simpa using cons_set_swap_perm xs k x a (by simpa using hi)
      | succ m =>
        simpa using (ih k m (by simpa using hi) (by simpa using hj)).cons x

theorem swapNth_perm (l : List α) (i j : ℕ) : List.Perm (swapNth l i j) l := by
  unfold swapNth
  cases hi : l.get? i <;> cases hj : l.get? j
  case none.none => exact List.Perm.refl l
  case none.some => exact List.Perm.refl l
  case some.none => exact List.Perm.refl l
  case some.some => exact set_set_swap_perm l i j _ _ hi hj

theorem shuffleSteps_perm (rnd : ℕ → ℕ) :
    ∀ (n : ℕ) (l : List α), List.Perm (shuffleSteps rnd n l) l
  | 0, l => List.Perm.refl l
  | i + 1, l =>
    (shuffleSteps_perm rnd i _).trans (swapNth_perm l (i + 1) (rnd (i + 1) % (i + 2)))

theorem jsShuffle_perm (rnd : ℕ → ℕ) (l : List α) : List.Perm (jsShuffle rnd l) l :=
  shuffleSteps_perm rnd _ l

theorem pickRandomSubset_length (rnd : ℕ → ℕ) (arr : List α) (n : ℕ) :
    (pickRandomSubset rnd arr n).length = min n arr.length := by
  unfold pickRandomSubset
  rw [List.length_take, (jsShuffle_perm rnd arr).length_eq]
  omega

theorem pickRandomSubset_subset (rnd : ℕ → ℕ) (arr : List α) (n : ℕ) :
    ∀ x ∈ pickRandomSubset rnd arr n, x ∈ arr := by
  intro x hx
  exact (jsShuffle_perm rnd arr).subset (List.take_subset _ _ hx)

theorem pickRandomSubset_nodup (rnd : ℕ → ℕ) (arr : List α) (n : ℕ) (h : arr.Nodup) :
    (pickRandomSubset rnd arr n).Nodup :=
  List.Nodup.sublist (List.take_sublist _ _) (((jsShuffle_perm rnd arr).nodup_iff).mpr h)

theorem mem_primaryList {all liked : List Listing} {pr : Profile} {it : ScoredItem}
    (h : it ∈ primaryList all liked pr) :
    it.isSurprise = false ∧ 60 ≤ it.score ∧ likedHas liked it.property = false
      ∧ it.property ∈ all ∧ it.score = calculateMatchScore it.property pr := by
  unfold primaryList at h
  have h1 := (List.perm_insertionSort scoreDesc _).subset h
  rw [List.mem_filter] at h1
  obtain ⟨h2, hscore⟩ := h1
  rw [List.mem_map] at h2
  obtain ⟨p, hp, rfl⟩ := h2
  rw [List.mem_filter] at hp
  obtain ⟨hpall, hlik⟩ := hp
  refine ⟨rfl, by simpa using hscore, by simpa using hlik, hpall, rfl⟩

theorem mem_surprisePool {all liked : List Listing} {pr : Profile} {it : ScoredItem}
    (h : it ∈ surprisePool all liked pr) :
    it.isSurprise = false ∧ 45 ≤ it.score ∧ it.score < 60
      ∧ likedHas liked it.property = false ∧ it.property ∈ all
      ∧ it.score = calculateMatchScore it.property pr := by
  unfold surprisePool at h
  have h1 := (List.perm_insertionSort scoreDesc _).subset h
  rw [List.mem_filter] at h1
  obtain ⟨h2, hscore⟩ := h1
  rw [List.mem_map] at h2
  obtain ⟨p, hp, rfl⟩ := h2
  rw [List.mem_filter] at hp
  obtain ⟨hpall, hcond⟩ := hp
  simp only [Bool.and_eq_true, Bool.not_eq_true'] at hcond hscore
  exact ⟨rfl, by simpa using hscore.1, by simpa using hscore.2, hcond.1, hpall, rfl⟩

theorem surprisePool_sorted (all liked : List Listing) (pr : Profile) :
    List.Sorted scoreDesc (surprisePool all liked pr) := by
  unfold surprisePool
  exact List.sorted_insertionSort scoreDesc _

theorem renderRecs_not_liked {all liked : List Listing} {pr : Profile} {it : ScoredItem}
    (h : it ∈ renderRecs all liked pr) : likedHas liked it.property = false := by
  unfold renderRecs at h
  cases hp : surprisePool all liked pr with
  | nil =>
    rw [hp] at h
    exact (mem_primaryList h).2.2.1
  | cons s rest =>
    rw [hp] at h
    split_ifs at h
    · rcases List.mem_append.mp h with h1 | h2
      · exact (mem_primaryList h1).2.2.1
      · have : it = ⟨s.property, s.score, true⟩ := by simpa using h2
        subst this
        have hsmem : s ∈ surprisePool all liked pr := by
          rw [hp]; exact List.mem_cons_self _ _
        exact (mem_surprisePool hsmem).2.2.2.1
    · exact (mem_primaryList h).2.2.1

/-! The claims. -/

/-- Claim C9 — Building a profile from zero liked listings (an empty liked list,
or a `null`/`undefined` one) returns no profile rather than raising an
error. -/
theorem c9_empty_liked_no_profile :
    buildPreferenceProfile [] = none
      ∧ buildPreferenceProfileOpt none = none
      ∧ buildPreferenceProfileOpt (some []) = none :=
  ⟨rfl, rfl, rfl⟩

/-- Claim C5 — Profile confidence is monotonically non-decreasing in the number
of liked listings when the location consistency and the price/area
coefficients of variation are held fixed. -/
theorem c5_confidence_monotone (stats : ConfStats) {m n : ℕ} (h : m ≤ n) :
    calculateConfidenceScore m stats ≤ calculateConfidenceScore n stats := by
  unfold calculateConfidenceScore
  exact jround_mono (confAdjusted_mono stats (confBase_mono h))

/-- **C2 (amended)** — For every liked set from which a profile is built, the
four weights of the built profile sum to exactly 100.  (The per-weight bounds
of the original claim are enforced only before the final renormalization and
can be violated by it; see the counterexample.) -/
theorem c2_profile_weights_sum (liked : List Listing) (pr : Profile)
    (h : buildPreferenceProfile liked = some pr) :
    pr.weights.city + pr.weights.price + pr.weights.size + pr.weights.rooms = 100 := by
  unfold buildPreferenceProfile at h
  split_ifs at h
  simp only [Option.some.injEq] at h
  subst h
  exact calculateDynamicWeights_sum _

/-- Claim C3 — A listing whose resolved area is 10 (below the 15-unit
plausibility floor) has its area dimension scored 0 for every profile, and its
aggregate score is the weighted sum multiplied by 0.3, rounded. -/
theorem c3_area_floor_penalty (p : Listing) (pr : Profile) (h : listingSqm p = some 10) :
    sizeScoreOf p pr = some 0
      ∧ calculateMatchScore p pr = jround (weightedTotal p pr * (3/10)) := by
  have hs : sizeScoreOf p pr = some 0 := by
    simp only [sizeScoreOf, h]
    norm_num [ite_self]
  refine ⟨hs, ?_⟩
  simp only [calculateMatchScore]
  rw [if_pos (Or.inr hs)]

/-- Claim C4 — Every ranking pass includes at most one wildcard; a wildcard
appears only when profile confidence is at least 60, its score lies in
[45, 60), it scores at least as high as every candidate of the wildcard pool
(non-liked, non-primary, score in [45, 60)), and it is appended after the
threshold-passing (score ≥ 60) entries. -/
theorem c4_wildcard_unique_and_bounded (all liked : List Listing) (pr : Profile) :
    ((renderRecs all liked pr).filter (fun it => it.isSurprise)).length ≤ 1
      ∧ ∀ it, it ∈ renderRecs all liked pr → it.isSurprise = true →
          60 ≤ pr.confidence
            ∧ 45 ≤ it.score ∧ it.score < 60
            ∧ (∀ q ∈ surprisePool all liked pr, q.score ≤ it.score)
            ∧ renderRecs all liked pr = primaryList all liked pr ++ [it]
            ∧ ∀ j ∈ primaryList all liked pr, j.isSurprise = false ∧ 60 ≤ j.score := by
  have hprim : ∀ j ∈ primaryList all liked pr, j.isSurprise = false ∧ 60 ≤ j.score :=
    fun j hj => ⟨(mem_primaryList hj).1, (mem_primaryList hj).2.1⟩
  have hfilter : (primaryList all liked pr).filter (fun it => it.isSurprise) = [] :=
    List.filter_eq_nil_iff.mpr (fun j hj => by simp [(hprim j hj).1])
  unfold renderRecs
  cases hp : surprisePool all liked pr with
  | nil =>
    refine ⟨by simp [hfilter], fun it hit hsur => ?_⟩
    exact absurd ((hprim it hit).1) (by simp [hsur])
  | cons s rest =>
    split_ifs with hconf
    · constructor
      · rw [List.filter_append, hfilter]
        simp
      · intro it hit hsur
        rcases List.mem_append.mp hit with hitp | hits
        · exact absurd ((hprim it hitp).1) (by simp [hsur])
        · have hit2 : it = ⟨s.property, s.score, true⟩ := by simpa using hits
          subst hit2
          have hsmem : s ∈ surprisePool all liked pr := by
            rw [hp]; exact List.mem_cons_self _ _
          have hsb := mem_surprisePool hsmem
          refine ⟨hconf, hsb.2.1, hsb.2.2.1, ?_, rfl, hprim⟩
          intro q hq
          have hsorted := surprisePool_sorted all liked pr
          rw [hp, List.sorted_cons] at hsorted
          rcases List.mem_cons.mp hq with rfl | hq2
          · exact le_refl _
          · exact hsorted.1 q hq2
    · refine ⟨by simp [hfilter], fun it hit hsur => ?_⟩
      exact absurd ((hprim it hit).1) (by simp [hsur])

/-- Claim C7 — The ranked output (primary list and wildcard) never contains a
listing that the liked/excluded set already contains (under the engine
`isSameProperty` identity). -/
theorem c7_rank_excludes_liked (all liked : List Listing) (pr : Profile) (it : ScoredItem)
    (h : it ∈ renderRecs all liked pr) :
    ∀ lp ∈ liked, isSameProperty lp it.property = false := by
  have hfalse := renderRecs_not_liked h
  unfold likedHas at hfalse
  intro lp hlp
  rw [List.any_eq_false] at hfalse
  simpa using hfalse lp hlp

/-- Claim C10 — Listing identity: two listings compare by id exactly when both
carry a truthy id; otherwise they are the same exactly when their titles and
buying prices agree.  Consequently an id-less candidate sharing title and
price with an id-less liked listing never appears in the ranked output. -/
theorem c10_identity_semantics :
    (∀ a b : Listing, truthyStr a.id = true → truthyStr b.id = true →
        (isSameProperty a b = true ↔ a.id = b.id))
      ∧ (∀ a b : Listing, ¬(truthyStr a.id = true ∧ truthyStr b.id = true) →
          (isSameProperty a b = true ↔ a.title = b.title ∧ a.buyingPrice = b.buyingPrice))
      ∧ (∀ (all liked : List Listing) (pr : Profile) (cand lp : Listing),
          lp ∈ liked → lp.id = none → cand.id = none →
          lp.title = cand.title → lp.buyingPrice = cand.buyingPrice →
          ∀ it ∈ renderRecs all liked pr, it.property ≠ cand) := by
  refine ⟨?_, ?_, ?_⟩
  · intro a b ha hb
    unfold isSameProperty
    rw [if_pos (by rw [ha, hb]; rfl)]
    simp
  · intro a b hn
    unfold isSameProperty
    rw [if_neg (by simpa [Bool.and_eq_true] using hn)]
    simp
  · intro all liked pr cand lp hlp hlpid hcandid htitle hprice it hit heq
    have hfalse := renderRecs_not_liked hit
    unfold likedHas at hfalse
    rw [List.any_eq_false] at hfalse
    have := hfalse lp hlp
    rw [heq] at this
    apply this
    unfold isSameProperty
    rw [if_neg (by simp [hlpid, truthyStr])]
    simp [htitle, hprice]

/-- Claim C8 — A load-more transition adds exactly
`min(15, remaining capacity before the 50-listing cap, unseen candidates)`
listings drawn without repetition from the unseen candidates, so the
cumulative number of listings shown never exceeds 50; and when no unseen
candidates remain, no batch is added (the outcome forces the results
path). -/
theorem c8_load_more_batch (rnd : ℕ → ℕ) (s : SwipeState)
    (hnodup : s.allProperties.Nodup) (hcap : s.properties.length ≤ MAX_TOTAL_SWIPES) :
    (loadMoreProperties rnd s).1.properties.length ≤ MAX_TOTAL_SWIPES
      ∧ (∀ b, (loadMoreProperties rnd s).2 = .loaded b →
          b.length = min 15 (min (MAX_TOTAL_SWIPES - s.properties.length) (unseenOf s).length)
            ∧ b.Nodup ∧ (∀ x ∈ b, x ∈ unseenOf s)
            ∧ (loadMoreProperties rnd s).1.properties = s.properties ++ b)
      ∧ ((unseenOf s).length = 0 →
          (loadMoreProperties rnd s).1 = s ∧ ∀ b, (loadMoreProperties rnd s).2 ≠ .loaded b) := by
  have hunodup : (unseenOf s).Nodup := hnodup.filter _
  simp only [loadMoreProperties]
  split_ifs with h1 h2
  · exact ⟨hcap, fun b hb => absurd hb (by simp), fun _ => ⟨rfl, fun b hb => by simp at hb⟩⟩
  · exact ⟨hcap, fun b hb => absurd hb (by simp), fun _ => ⟨rfl, fun b hb => by simp at hb⟩⟩
  · have hlen := pickRandomSubset_length rnd (unseenOf s)
      (min 15 (min (MAX_TOTAL_SWIPES - s.properties.length) (unseenOf s).length))
    refine ⟨?_, ?_, ?_⟩
    · simp only [List.length_append]
      rw [hlen]
      omega
    · intro b hb
      simp only [LoadMoreOutcome.loaded.injEq] at hb
      subst hb
      refine ⟨?_, pickRandomSubset_nodup _ _ _ hunodup, pickRandomSubset_subset _ _ _, rfl⟩
      rw [hlen]
      omega
    · intro h3
      exact absurd h3 h2

section ConcreteEvaluations
attribute [local semireducible] Rat.add Rat.mul Rat.inv Rat.sub

/-- Claim C1 — Refuted on the code: for the profile built from the single like
`exA` (price min = max = mean = 300000, area min = max = mean = 60), scoring
`exA` itself computes `0/0 = NaN` in the in-range price and area formulas
(`none` here) instead of 100; the `NaN` is coerced to a 0 contribution by
`|| 0`, escapes the `=== 0` penalty test, and the listing scores 18, not
100. -/
theorem c1_unguarded_division_eval :
    (buildPreferenceProfile [exA]).map (priceScoreOf exA) = some none
      ∧ (buildPreferenceProfile [exA]).map (sizeScoreOf exA) = some none
      ∧ (buildPreferenceProfile [exA]).map (calculateMatchScore exA) = some 18 :=
  ⟨by decide, by decide, by decide⟩

/-- Claim C2 counterexample — A liked set of size 3 (three copies of `exB`:
no address, identical price/area/rooms) yields built weights
⟨13, 40, 35, 12⟩: the location weight 13 is below its documented lower
bound 15 (and the rooms weight would be 20 for other inputs), refuting the
per-weight bounds of the original claim. -/
theorem c2_weights_bound_counterexample :
    3 ≤ [exB, exB, exB].length
      ∧ (buildPreferenceProfile [exB, exB, exB]).map Profile.weights = some ⟨13, 40, 35, 12⟩
      ∧ ¬(15 ≤ (13 : ℤ)) :=
  ⟨by decide, by decide, by decide⟩

/-- Claim C2 witness — The amended claim applied to the concrete liked set
`[exA]`. -/
theorem c2_profile_weights_sum_witness :
    buildPreferenceProfile [exA] = some exProfA
      ∧ exProfA.weights.city + exProfA.weights.price + exProfA.weights.size
          + exProfA.weights.rooms = 100 :=
  ⟨by decide, c2_profile_weights_sum [exA] exProfA (by decide)⟩

/-- Claim C5 witness — Monotonicity applied at sample sizes 2 ≤ 3 with the
fully consistent stats `exConfStats`. -/
theorem c5_confidence_monotone_witness :
    2 ≤ 3 ∧ calculateConfidenceScore 2 exConfStats ≤ calculateConfidenceScore 3 exConfStats :=
  ⟨by decide, c5_confidence_monotone exConfStats (by decide)⟩

/-- Claim C6 — Refuted on the code (contradicting the source own comment
"Include cities that appear at least twice or 15% of likes"): with location
samples `["A", "A", "B"]`, the non-primary location "B" reaches a 1/3 ≥ 15%
share of the likes, yet the alternates list is empty, because the code
demands `count ≥ max(2, floor(0.15·n))`, i.e. both conditions at once. -/
theorem c6_alternates_threshold_eval :
    calculateCategoryPreferences ["A", "A", "B"] = ⟨some "A", [], 67⟩
      ∧ (15/100 : ℚ) ≤ 1/3 :=
  ⟨by decide, by decide⟩

/-- Claim C3 witness — The area-floor penalty applied to the concrete listing
`exTiny` (area 10) against the concrete profile `exPr`. -/
theorem c3_area_floor_penalty_witness :
    listingSqm exTiny = some 10
      ∧ (sizeScoreOf exTiny exPr = some 0
          ∧ calculateMatchScore exTiny exPr = jround (weightedTotal exTiny exPr * (3/10))) :=
  ⟨by decide, c3_area_floor_penalty exTiny exPr (by decide)⟩

/-- Claim C4 witness — On the catalog `[exX, exY]` with liked set `[exL]` and
profile `exPr` (confidence 60), the wildcard `exY` (score 56) is flagged and
appended after the lone primary entry `exX` (score 100). -/
theorem c4_wildcard_witness :
    ((⟨exY, 56, true⟩ : ScoredItem) ∈ renderRecs [exX, exY] [exL] exPr)
      ∧ 60 ≤ exPr.confidence
      ∧ 45 ≤ (⟨exY, 56, true⟩ : ScoredItem).score
      ∧ (⟨exY, 56, true⟩ : ScoredItem).score < 60
      ∧ renderRecs [exX, exY] [exL] exPr
          = primaryList [exX, exY] [exL] exPr ++ [⟨exY, 56, true⟩] := by
  have h := (c4_wildcard_unique_and_bounded [exX, exY] [exL] exPr).2
    ⟨exY, 56, true⟩ (by decide) rfl
  exact ⟨by decide, h.1, h.2.1, h.2.2.1, h.2.2.2.2.1⟩

/-- Claim C7 witness — The primary entry `exX` of the ranked output is not the
liked listing `exL` under the engine identity. -/
theorem c7_rank_excludes_liked_witness :
    ((⟨exX, 100, false⟩ : ScoredItem) ∈ renderRecs [exX, exY] [exL] exPr)
      ∧ exL ∈ [exL]
      ∧ isSameProperty exL exX = false :=
  ⟨by decide, by decide,
    c7_rank_excludes_liked [exX, exY] [exL] exPr ⟨exX, 100, false⟩ (by decide) exL (by decide)⟩

/-- Claim C10 witness — Identity semantics at concrete listings: id comparison
wins when both ids are truthy (`exId1`/`exId2`: same id, different title and
price); title+price comparison applies to the id-less `exDupLiked`/`exDupCand`;
and the candidate `exDupCand`, sharing title and price with the liked
`exDupLiked`, is kept out of the ranked output. -/
theorem c10_identity_semantics_witness :
    (truthyStr exId1.id = true ∧ truthyStr exId2.id = true
        ∧ isSameProperty exId1 exId2 = true)
      ∧ (¬(truthyStr exDupLiked.id = true ∧ truthyStr exDupCand.id = true)
          ∧ isSameProperty exDupLiked exDupCand = true)
      ∧ ((⟨exX, 100, false⟩ : ScoredItem) ∈ renderRecs [exDupCand, exX] [exDupLiked] exPr
          ∧ exX ≠ exDupCand) := by
  refine ⟨⟨by decide, by decide, ?_⟩, ⟨by decide, ?_⟩, by decide, ?_⟩
  · exact (c10_identity_semantics.1 exId1 exId2 (by decide) (by decide)).mpr (by decide)
  · exact (c10_identity_semantics.2.1 exDupLiked exDupCand (by decide)).mpr
      ⟨by decide, by decide⟩
  · exact c10_identity_semantics.2.2 [exDupCand, exX] [exDupLiked] exPr exDupCand exDupLiked
      (by decide) (by decide) (by decide) (by decide) (by decide)
      ⟨exX, 100, false⟩ (by decide)

/-- Claim C8 witness — Loading more on the state `exS` (catalog `[exX, exY]`,
`exX` shown) adds the single-element batch `[exY]` and stays within the
cap. -/
theorem c8_load_more_batch_witness :
    exS.allProperties.Nodup
      ∧ exS.properties.length ≤ MAX_TOTAL_SWIPES
      ∧ (loadMoreProperties exRnd exS).1.properties.length ≤ MAX_TOTAL_SWIPES
      ∧ [exY].length
          = min 15 (min (MAX_TOTAL_SWIPES - exS.properties.length) (unseenOf exS).length) := by
  have h := c8_load_more_batch exRnd exS (by decide) (by decide)
  exact ⟨by decide, by decide, h.1, (h.2.1 [exY] (by decide)).1⟩

end ConcreteEvaluations
